import Mathlib

/-!
Verification of the EventMesh recommendation scoring engine
(`app/services/recommendation_service.py`).

Shallow embedding conventions:
* Python floats are modelled as real numbers (`ℝ`); coordinates and scores
  are `ℝ`, counts are `ℕ`.
* Timestamps are integers (`ℤ`, seconds).  `Event.start_time = none` models a
  missing or unparsable `start_time` value (the Python code skips such events
  after its string-parsing cascade fails, or when the `<` comparison on the
  unparsed value raises inside the `try` block).
* Firestore documents are modelled as association lists keyed by id, in
  insertion order, mirroring Python `dict` iteration.  Keys whose absence the
  code can observe (`'attendees'`, `'venue'`, `'schedule'` on events, and the
  optional profile fields) are `Option`-valued, `none` meaning the key is
  absent.
* `datetime.now()` is passed in explicitly as the parameter `now`.
* The service state after `initialize` is `{users_data, events_data}` with the
  social graph derived from `users_data` exactly as `_build_social_graph`
  builds it; the entry points below model the body of each method after
  `refresh_if_needed` has returned without triggering a reload (the
  no-refresh-due case).
-/

/-- A venue dictionary (`event['venue']`); every field may be absent. -/
structure Venue where
  name : Option String
  address : Option String
  latitude : Option ℝ
  longitude : Option ℝ

/-- An entry of an event's `attendees` list: either a dict carrying an
optional `user_id`, or a bare string id (both forms appear in the code's
`isinstance` dispatch). -/
inductive Attendee where
  | adict (user_id : Option String)
  | astr (s : String)

/-- An event document.  `start_time` is the parsed timestamp (seconds), `none`
when the field is missing or unparsable.  `attendees`, `venue` and `schedule`
are `Option`-valued because `get_event_recommendations` observes and fills in
their absence. -/
structure Event where
  start_time : Option ℤ
  category : List String
  venue : Option Venue
  attendees : Option (List Attendee)
  schedule : Option (List String)
  title : Option String
  description : Option String
  image_url : Option String
  price : Option ℚ
  attendees_count : ℕ

/-- A user document. -/
structure User where
  interests : List String
  connections : List String
  events_attended : ℕ
  display_name : Option String
  profile_image_url : Option String
  bio : Option String

/-- The cached snapshot owned by `RecommendationService` after `initialize`:
`users_data` and `events_data` as loaded by `_load_all_data`. -/
structure ServiceState where
  users_data : List (String × User)
  events_data : List (String × Event)

/-- The node set of the social graph built by `_build_social_graph`: one node
per user id. -/
def graph_nodes (users : List (String × User)) : Finset String :=
  (users.map Prod.fst).toFinset

/-- Neighbors of `a` in the social graph.  `_build_social_graph` adds an edge
`(user_id, connection_id)` for every connection reference whose target is a
node, so `b` is a neighbor of `a` iff both are nodes and either side lists the
other.  For `a` outside the graph the call sites never ask for neighbors; we
return the empty set. -/
def neighbors (users : List (String × User)) (a : String) : Finset String :=
  if a ∈ graph_nodes users then
    (graph_nodes users).filter (fun b =>
      ∃ p ∈ users, (p.1 = a ∧ b ∈ p.2.connections) ∨ (p.1 = b ∧ a ∈ p.2.connections))
  else ∅

/-- The user id carried by one attendee entry (`attendee.get('user_id')` for
the dict form, the string itself otherwise). -/
def attendee_id : Attendee → Option String
  | .adict uid => uid
  | .astr s => some s

/-- The set of attendee ids of an event (`event_attendees` in
`_calculate_social_score`). -/
def attendee_ids (l : List Attendee) : Finset String :=
  (l.filterMap attendee_id).toFinset

/-- `_get_user_events`: the set of event ids whose attendee list contains
`user_id`. -/
def get_user_events (events_data : List (String × Event)) (user_id : String) :
    Finset String :=
  ((events_data.filter
    (fun p => user_id ∈ (p.2.attendees.getD []).filterMap attendee_id)).map
      Prod.fst).toFinset

/-- The keys of the `interest_prompts` template table in
`_get_conversation_starters`. -/
def interest_prompt_topics : List String :=
  [("tech"), ("music"), ("art"), ("food"), ("sports"), ("gaming"),
   ("photography"), ("fashion"), ("literature"), ("science"), ("movies"),
   ("travel"), ("fitness"), ("business"), ("education")]

/-- Models `_get_conversation_starters`.  The Python function iterates the set
of common interests, maps each one having a template entry to a prompt picked
by `random.choice` (stopping once 3 prompts are collected), and otherwise
falls back to a single generic prompt built from a random common interest.
The prompt text is randomized and irrelevant to every claim, so a starter is
modelled by the interest tag it was generated from, with the (unspecified)
Python set-iteration order fixed to first-occurrence order in
`user_interests`. -/
def get_conversation_starters (user_interests connection_interests : List String) :
    List String :=
  let common := user_interests.dedup.filter (fun i => i ∈ connection_interests)
  let starters := (common.filter (fun i => i ∈ interest_prompt_topics)).take 3
  if starters.isEmpty ∧ ¬ common.isEmpty then
    match common with
    | i :: _ => [i]
    | [] => []
  else starters

noncomputable section

open Real

/-- Python's `math.atan2` on real arguments (the NaN/inf cases of the float
function are outside the real model). -/
def atan2 (y x : ℝ) : ℝ :=
  if 0 < x then arctan (y / x)
  else if x < 0 then
    (if 0 ≤ y then arctan (y / x) + π else arctan (y / x) - π)
  else
    (if 0 < y then π / 2 else if y < 0 then -(π / 2) else 0)

/-- `_calculate_distance`: Haversine distance in km, Earth radius 6378,
degree inputs converted to radians. -/
def calculate_distance (lat1 lon1 lat2 lon2 : ℝ) : ℝ :=
  let lat1r := lat1 * π / 180
  let lon1r := lon1 * π / 180
  let lat2r := lat2 * π / 180
  let lon2r := lon2 * π / 180
  let dlon := lon2r - lon1r
  let dlat := lat2r - lat1r
  let a := sin (dlat / 2) ^ 2 + cos lat1r * cos lat2r * sin (dlon / 2) ^ 2
  let c := 2 * atan2 (sqrt a) (sqrt (1 - a))
  6378 * c

/-- `_calculate_interest_score`: fraction of the event's category set matched
by the user's interests; 0 when either list is empty. -/
def calculate_interest_score (user_interests event_categories : List String) : ℝ :=
  if user_interests.isEmpty ∨ event_categories.isEmpty then 0
  else
    let common := user_interests.toFinset ∩ event_categories.toFinset
    (common.card : ℝ) / (event_categories.toFinset.card : ℝ)

/-- `_calculate_social_score`: fraction of the user's graph neighbors that
attend the event; 0 when the user is not a node, the event is unknown, or the
user has no neighbors. -/
def calculate_social_score (st : ServiceState) (user_id event_id : String) : ℝ :=
  match st.events_data.lookup event_id with
  | none => 0
  | some event =>
    if user_id ∉ graph_nodes st.users_data then 0
    else
      let event_attendees := attendee_ids (event.attendees.getD [])
      let user_connections := neighbors st.users_data user_id
      if user_connections = ∅ then 0
      else ((user_connections ∩ event_attendees).card : ℝ) / (user_connections.card : ℝ)

/-- `_inflate_score`: flat +0.25 below 0.5, linearly shrinking boost on
(0.5, 0.9], capped at 0.9. -/
def inflate_score (score : ℝ) : ℝ :=
  let inflated_score :=
    if score ≤ 0.5 then score + 0.25
    else
      let max_score : ℝ := 0.9
      let min_score : ℝ := 0.5
      let max_inflation : ℝ := 0.25
      let min_inflation : ℝ := 0.0
      let score_position := (score - min_score) / (max_score - min_score)
      let inflation := max_inflation - score_position * (max_inflation - min_inflation)
      score + inflation
  min 0.9 inflated_score

/-- `_calculate_location_score`: `max(0, 1 - distance/max_distance)`; 0 when
the user location is absent, the venue dict is absent or empty, or either
venue coordinate is missing. -/
def calculate_location_score (user_location : Option (ℝ × ℝ))
    (event_location : Option Venue) (max_distance : ℝ) : ℝ :=
  match user_location, event_location with
  | some (ulat, ulon), some venue =>
    match venue.latitude, venue.longitude with
    | some event_lat, some event_lon =>
      max 0 (1 - calculate_distance ulat ulon event_lat event_lon / max_distance)
    | _, _ => 0
  | _, _ => 0

/-- `_calculate_time_relevance_score`: 0 for past events, `1 - days/14` up to
14 days out, `0.5 - (days-14)/30` for 15 to 30 days out, 0.3 beyond.
`days` is the whole-day part of the remaining time (`timedelta.days`). -/
def calculate_time_relevance_score (event_time : Option ℤ) (now : ℤ) : ℝ :=
  match event_time with
  | none => 0
  | some t =>
    if t < now then 0
    else
      let days_until_event : ℤ := (t - now) / 86400
      if days_until_event ≤ 14 then 1 - (days_until_event : ℝ) / 14
      else if days_until_event ≤ 30 then 0.5 - ((days_until_event : ℝ) - 14) / 30
      else 0.3

/-- The mutual-connections sub-score of `get_connection_recommendations`
(line `mutual_connections_score = len(mutual_connections) / 10`; the comment
says the value is capped at 10 mutual connections but no cap is applied). -/
def mutual_connections_score (mutual_connections : ℕ) : ℝ :=
  (mutual_connections : ℝ) / 10

/-- The common-attended-events sub-score of `get_connection_recommendations`
(`min(1.0, common_events / 5)`). -/
def common_events_score (common_events : ℕ) : ℝ :=
  min 1 ((common_events : ℝ) / 5)

/-- The `score_details` dictionary attached to an event recommendation. -/
structure ScoreDetails where
  interest_score : ℝ
  social_score : ℝ
  location_score : ℝ
  time_score : ℝ

/-- One entry of the list returned by `get_event_recommendations`. -/
structure EventRec where
  id : String
  title : String
  description : String
  start_time : ℤ
  image_url : Option String
  venue : Venue
  category : List String
  price : Option ℚ
  attendees_count : ℕ
  attendees : List Attendee
  schedule : List String
  score : ℝ
  original_score : ℝ
  score_details : ScoreDetails

/-- The default venue dict the loop fills in when the `venue` key is absent. -/
def default_venue : Venue := ⟨none, none, none, none⟩

/-- Lines 299-302 of the event loop: `location_score = 0.0`, overwritten by
`_calculate_location_score(user_location, venue, max_distance_km)` when a user
location was supplied. -/
def pipeline_location_score (user_location : Option (ℝ × ℝ))
    (venue : Option Venue) (max_distance_km : ℝ) : ℝ :=
  match user_location with
  | some _ => calculate_location_score user_location venue max_distance_km
  | none => 0

/-- The body of the per-event loop of `get_event_recommendations` for one
`(event_id, event)` pair: `none` means the event was skipped (`continue`);
`some (rec, event')` returns the appended recommendation entry together with
the event value after the loop's in-place default-filling of the
`attendees`/`venue`/`schedule` keys. -/
def process_event (st : ServiceState) (user_id : String) (user : User)
    (user_location : Option (ℝ × ℝ)) (max_distance_km : ℝ) (now : ℤ)
    (is_new_user : Bool) (p : String × Event) : Option (EventRec × Event) :=
  match p.2.start_time with
  | none => none
  | some event_time =>
    if event_time < now then none
    else
      let event := p.2
      let interest_score := calculate_interest_score user.interests event.category
      let social_score := calculate_social_score st user_id p.1
      let location_score :=
        pipeline_location_score user_location event.venue max_distance_km
      let time_score := calculate_time_relevance_score (some event_time) now
      if location_score = 0 ∧ user_location ≠ none then none
      else
        let total_score :=
          if is_new_user then
            0.5 * interest_score + 0.1 * social_score +
              0.2 * location_score + 0.2 * time_score
          else
            0.35 * interest_score + 0.25 * social_score +
              0.2 * location_score + 0.2 * time_score
        let inflated_score := inflate_score total_score
        let event' : Event := { event with
          attendees := some (event.attendees.getD []),
          venue := some (event.venue.getD default_venue),
          schedule := some (event.schedule.getD []) }
        some ({ id := p.1,
                title := event.title.getD ("Untitled Event"),
                description := event.description.getD (""),
                start_time := event_time,
                image_url := event.image_url,
                venue := event.venue.getD default_venue,
                category := event.category,
                price := event.price,
                attendees_count := event.attendees_count,
                attendees := event.attendees.getD [],
                schedule := event.schedule.getD [],
                score := inflated_score,
                original_score := total_score,
                score_details :=
                  ⟨interest_score, social_score, location_score, time_score⟩ },
              event')

/-- `list.sort(key=lambda x: x['score'], reverse=True)`: stable descending
sort by score. -/
def sort_by_score_desc {α : Type} (score : α → ℝ) (l : List α) : List α :=
  l.mergeSort (fun a b => decide (score b ≤ score a))

/-- The unsorted list of recommendation entries produced by the event loop. -/
def event_candidates (st : ServiceState) (user_id : String) (user : User)
    (user_location : Option (ℝ × ℝ)) (max_distance_km : ℝ) (now : ℤ)
    (is_new_user : Bool) : List EventRec :=
  st.events_data.filterMap
    (fun p => (process_event st user_id user user_location max_distance_km now
                is_new_user p).map Prod.fst)

/-- `user_location = (latitude, longitude) if latitude is not None and
longitude is not None else None`. -/
def resolve_location (latitude longitude : Option ℝ) : Option (ℝ × ℝ) :=
  match latitude, longitude with
  | some la, some lo => some (la, lo)
  | _, _ => none

/-- `is_new_user = user.get('events_attended', 0) < 2 and
len(user_connections) < 3` (with `user_connections` the set of the user's
connections). -/
def is_new_user_flag (user : User) : Bool :=
  decide (user.events_attended < 2 ∧ user.connections.toFinset.card < 3)

/-- `get_event_recommendations` (after a no-op `refresh_if_needed`).  Returns
the recommendation list together with the `events_data` cache contents after
the call, reflecting the loop's in-place mutation of event dicts. -/
def get_event_recommendations (st : ServiceState) (user_id : String)
    (latitude longitude : Option ℝ) (max_distance_km : ℝ) (limit : ℕ)
    (now : ℤ) : List EventRec × List (String × Event) :=
  match st.users_data.lookup user_id with
  | none => ([], st.events_data)
  | some user =>
    let user_location := resolve_location latitude longitude
    let recommended_events :=
      event_candidates st user_id user user_location max_distance_km now
        (is_new_user_flag user)
    let events_data' := st.events_data.map
      (fun p =>
        match process_event st user_id user user_location max_distance_km now
                (is_new_user_flag user) p with
        | some (_, e') => (p.1, e')
        | none => p)
    ((sort_by_score_desc EventRec.score recommended_events).take limit, events_data')

/-- One entry of the list returned by `get_connection_recommendations`. -/
structure ConnectionRec where
  connection_id : String
  display_name : String
  profile_image_url : Option String
  bio : String
  mutual_interests : List String
  mutual_connections : ℕ
  events_in_common : ℕ
  conversation_starters : List String
  score : ℝ
  original_score : ℝ

/-- The body of the candidate loop of `get_connection_recommendations` for one
`(other_id, other_user)` pair; `none` means the pair was skipped (same user or
already connected).  `list(set)` orderings (`mutual_interests`) are fixed to
first-occurrence order. -/
def score_candidate (st : ServiceState) (user_id : String) (user : User)
    (p : String × User) : Option ConnectionRec :=
  if p.1 = user_id ∨ p.1 ∈ user.connections then none
  else
    let other_interests := p.2.interests
    let common_interests :=
      user.interests.dedup.filter (fun i => i ∈ other_interests)
    let interest_score : ℝ :=
      if user.interests.isEmpty then 0
      else (common_interests.length : ℝ) / ((max user.interests.length 1 : ℕ) : ℝ)
    let mutual_connections : Finset String :=
      if user_id ∈ graph_nodes st.users_data ∧ p.1 ∈ graph_nodes st.users_data then
        neighbors st.users_data user_id ∩ neighbors st.users_data p.1
      else ∅
    let mcs := mutual_connections_score mutual_connections.card
    let common_events :=
      (get_user_events st.events_data user_id ∩ get_user_events st.events_data p.1).card
    let ces := common_events_score common_events
    let total_score := 0.5 * interest_score + 0.3 * mcs + 0.2 * ces
    some { connection_id := p.1,
           display_name := p.2.display_name.getD ("Unknown User"),
           profile_image_url := p.2.profile_image_url,
           bio := p.2.bio.getD (""),
           mutual_interests := common_interests,
           mutual_connections := mutual_connections.card,
           events_in_common := common_events,
           conversation_starters :=
             get_conversation_starters user.interests other_interests,
           score := inflate_score total_score,
           original_score := total_score }

/-- `get_connection_recommendations` (after a no-op `refresh_if_needed`). -/
def get_connection_recommendations (st : ServiceState) (user_id : String)
    (limit : ℕ) : List ConnectionRec :=
  match st.users_data.lookup user_id with
  | none => []
  | some user =>
    (sort_by_score_desc ConnectionRec.score
      (st.users_data.filterMap (score_candidate st user_id user))).take limit

/-- One entry of the list returned by
`get_event_based_connection_recommendations` (same shape as a connection
recommendation but without `events_in_common`). -/
structure EventConnectionRec where
  connection_id : String
  display_name : String
  profile_image_url : Option String
  bio : String
  mutual_interests : List String
  mutual_connections : ℕ
  conversation_starters : List String
  score : ℝ
  original_score : ℝ

/-- The attendee-collection loop of
`get_event_based_connection_recommendations`: keeps an attendee's id when it
is present and is neither the requesting user nor an existing connection. -/
def eligible_attendee (user_id : String) (user_connections : List String) :
    Attendee → Option String
  | .adict (some aid) =>
    if aid ≠ user_id ∧ aid ∉ user_connections then some aid else none
  | .adict none => none
  | .astr s =>
    if s ≠ user_id ∧ s ∉ user_connections then some s else none

/-- The per-attendee scoring loop of
`get_event_based_connection_recommendations`; `none` means the attendee id has
no user document.  As in `get_conversation_starters`, the event-related
conversation starter is modelled by the tag (or event title) it is built
from. -/
def score_event_attendee (st : ServiceState) (event : Event) (user_id : String)
    (user : User) (attendee_id : String) : Option EventConnectionRec :=
  match st.users_data.lookup attendee_id with
  | none => none
  | some attendee =>
    let attendee_interests := attendee.interests
    let common_interests :=
      user.interests.dedup.filter (fun i => i ∈ attendee_interests)
    let interest_score : ℝ :=
      if user.interests.isEmpty then 0
      else (common_interests.length : ℝ) / ((max user.interests.length 1 : ℕ) : ℝ)
    let mutual_connections : Finset String :=
      if user_id ∈ graph_nodes st.users_data ∧
          attendee_id ∈ graph_nodes st.users_data then
        neighbors st.users_data user_id ∩ neighbors st.users_data attendee_id
      else ∅
    let mutual_score : ℝ := min 1 ((mutual_connections.card : ℝ) / 5)
    let event_related_interests :=
      (event.category.dedup.filter (fun i => i ∈ common_interests))
    let conversation_starters : List String :=
      match event_related_interests with
      | i :: _ => [i]
      | [] => [event.title.getD ("")]
    let total_score := 0.7 * interest_score + 0.3 * mutual_score
    some { connection_id := attendee_id,
           display_name := attendee.display_name.getD ("Unknown User"),
           profile_image_url := attendee.profile_image_url,
           bio := attendee.bio.getD (""),
           mutual_interests := common_interests,
           mutual_connections := mutual_connections.card,
           conversation_starters := conversation_starters,
           score := inflate_score total_score,
           original_score := total_score }

/-- `get_event_based_connection_recommendations` (after a no-op
`refresh_if_needed`). -/
def get_event_based_connection_recommendations (st : ServiceState)
    (event_id user_id : String) (limit : ℕ) : List EventConnectionRec :=
  match st.events_data.lookup event_id with
  | none => []
  | some event =>
    match st.users_data.lookup user_id with
    | none => []
    | some user =>
      let attendees := (event.attendees.getD []).filterMap
        (eligible_attendee user_id user.connections)
      (sort_by_score_desc EventConnectionRec.score
        (attendees.filterMap (score_event_attendee st event user_id user))).take limit

end

/-! ### Helper lemmas -/

theorem inflate_else_eq (z : ℝ) :
    z + (0.25 - (z - 0.5) / (0.9 - 0.5) * (0.25 - 0.0)) = 0.375 * z + 0.5625 := by
  norm_num
  ring

theorem inflate_score_le_cap (x : ℝ) : inflate_score x ≤ 0.9 := by
  simp only [inflate_score]
  exact min_le_left _ _

theorem inflate_score_mono {x y : ℝ} (h : x ≤ y) : inflate_score x ≤ inflate_score y := by
  simp only [inflate_score]
  refine min_le_min le_rfl ?_
  split_ifs with h1 h2
  · linarith
  · rw [inflate_else_eq]
    linarith
  · linarith
  · rw [inflate_else_eq, inflate_else_eq]
    linarith

theorem inflate_score_ge_self {x : ℝ} (h0 : 0 ≤ x) (h9 : x ≤ 0.9) :
    x ≤ inflate_score x := by
  simp only [inflate_score]
  refine le_min (by linarith) ?_
  split_ifs with h1
  · linarith
  · rw [inflate_else_eq]
    linarith

theorem inflate_score_lower {x : ℝ} (h0 : 0 ≤ x) : 0.25 ≤ inflate_score x := by
  simp only [inflate_score]
  refine le_min (by norm_num) ?_
  split_ifs with h1
  · linarith
  · rw [inflate_else_eq]
    linarith

theorem atan2_nonneg {y x : ℝ} (hy : 0 ≤ y) (hx : 0 ≤ x) : 0 ≤ atan2 y x := by
  have harc : 0 ≤ Real.arctan (y / x) := by
    have hq : 0 ≤ y / x := div_nonneg hy hx
    have h := Real.arctan_strictMono.monotone hq
    rwa [Real.arctan_zero] at h
  have hpi := Real.pi_pos
  unfold atan2
  split_ifs <;> linarith

theorem calculate_distance_nonneg (lat1 lon1 lat2 lon2 : ℝ) :
    0 ≤ calculate_distance lat1 lon1 lat2 lon2 := by
  simp only [calculate_distance]
  refine mul_nonneg (by norm_num) (mul_nonneg (by norm_num) ?_)
  exact atan2_nonneg (Real.sqrt_nonneg _) (Real.sqrt_nonneg _)

theorem calculate_interest_score_bounds (ui ec : List String) :
    0 ≤ calculate_interest_score ui ec ∧ calculate_interest_score ui ec ≤ 1 := by
  unfold calculate_interest_score
  split_ifs with h
  · norm_num
  · push_neg at h
    have hec : ec ≠ [] := by
      intro he
      exact absurd (by simp [he]) h.2
    have hpos : 0 < ec.toFinset.card := by
      rw [Finset.card_pos, Finset.nonempty_iff_ne_empty]
      simpa [List.toFinset_eq_empty_iff] using hec
    have hle : (ui.toFinset ∩ ec.toFinset).card ≤ ec.toFinset.card :=
      Finset.card_le_card Finset.inter_subset_right
    constructor
    · positivity
    · rw [div_le_one (by exact_mod_cast hpos)]
      exact_mod_cast hle

theorem calculate_interest_score_empty (ui ec : List String)
    (h : ui = [] ∨ ec = []) : calculate_interest_score ui ec = 0 := by
  unfold calculate_interest_score
  rcases h with rfl | rfl <;> simp

theorem calculate_social_score_bounds (st : ServiceState) (uid eid : String) :
    0 ≤ calculate_social_score st uid eid ∧ calculate_social_score st uid eid ≤ 1 := by
  unfold calculate_social_score
  split
  · norm_num
  · rename_i event heq
    dsimp only
    by_cases h1 : uid ∉ graph_nodes st.users_data
    · rw [if_pos h1]
      norm_num
    · rw [if_neg h1]
      by_cases h2 : neighbors st.users_data uid = ∅
      · rw [if_pos h2]
        norm_num
      · rw [if_neg h2]
        have hpos : 0 < (neighbors st.users_data uid).card := by
          rw [Finset.card_pos, Finset.nonempty_iff_ne_empty]
          exact h2
        have hle : ((neighbors st.users_data uid) ∩
              attendee_ids (event.attendees.getD [])).card ≤
            (neighbors st.users_data uid).card :=
          Finset.card_le_card Finset.inter_subset_left
        constructor
        · positivity
        · rw [div_le_one (by exact_mod_cast hpos)]
          exact_mod_cast hle

theorem calculate_location_score_bounds (loc : Option (ℝ × ℝ))
    (ven : Option Venue) {maxd : ℝ} (h : 0 < maxd) :
    0 ≤ calculate_location_score loc ven maxd ∧
      calculate_location_score loc ven maxd ≤ 1 := by
  rcases loc with _ | ⟨ula, ulo⟩
  · simp [calculate_location_score]
  · rcases ven with _ | v
    · simp [calculate_location_score]
    · rcases hla : v.latitude with _ | la
      · simp [calculate_location_score, hla]
      · rcases hlo : v.longitude with _ | lo
        · simp [calculate_location_score, hla, hlo]
        · simp only [calculate_location_score, hla, hlo]
          constructor
          · exact le_max_left _ _
          · refine max_le (by norm_num) ?_
            have hd := calculate_distance_nonneg ula ulo la lo
            have hq : 0 ≤ calculate_distance ula ulo la lo / maxd :=
              div_nonneg hd h.le
            linarith

theorem calculate_time_relevance_score_bounds (et : Option ℤ) (now : ℤ) :
    -(1 / 30) ≤ calculate_time_relevance_score et now ∧
      calculate_time_relevance_score et now ≤ 1 := by
  unfold calculate_time_relevance_score
  rcases et with _ | t
  · norm_num
  · dsimp only
    split_ifs with h1 h2 h3
    · norm_num
    · have hd0 : (0 : ℤ) ≤ (t - now) / 86400 :=
        Int.ediv_nonneg (by linarith) (by norm_num)
      have c0 : (0 : ℝ) ≤ (((t - now) / 86400 : ℤ) : ℝ) := by exact_mod_cast hd0
      have c14 : (((t - now) / 86400 : ℤ) : ℝ) ≤ 14 := by exact_mod_cast h2
      constructor <;> [linarith; linarith]
    · have c15 : (15 : ℝ) ≤ (((t - now) / 86400 : ℤ) : ℝ) := by
        have : (15 : ℤ) ≤ (t - now) / 86400 := by omega
        exact_mod_cast this
      have c30 : (((t - now) / 86400 : ℤ) : ℝ) ≤ 30 := by exact_mod_cast h3
      constructor <;> [linarith; linarith]
    · norm_num

theorem common_events_score_bounds (n : ℕ) :
    0 ≤ common_events_score n ∧ common_events_score n ≤ 1 := by
  unfold common_events_score
  constructor
  · exact le_min (by norm_num) (by positivity)
  · exact min_le_left _ _

theorem mutual_connections_score_props (n : ℕ) :
    0 ≤ mutual_connections_score n ∧ (mutual_connections_score n ≤ 1 ↔ n ≤ 10) := by
  unfold mutual_connections_score
  constructor
  · positivity
  · rw [div_le_one (by norm_num)]
    exact_mod_cast Iff.rfl

/-! ### Claims about the score primitives -/

/-- C1: the score inflation transform is monotone and bounded: `x < y` implies
`inflate_score x ≤ inflate_score y`; `inflate_score x ≤ 0.9` for every `x`;
and `inflate_score x ≥ x` for `x ∈ [0, 0.9]`. -/
theorem C1_inflate_monotone_bounded :
    (∀ x y : ℝ, x < y → inflate_score x ≤ inflate_score y) ∧
    (∀ x : ℝ, inflate_score x ≤ 0.9) ∧
    (∀ x : ℝ, 0 ≤ x → x ≤ 0.9 → x ≤ inflate_score x) :=
  ⟨fun _ _ h => inflate_score_mono h.le,
   inflate_score_le_cap,
   fun _ h0 h9 => inflate_score_ge_self h0 h9⟩

/-- Witness for C1 at concrete scores. -/
theorem C1_witness :
    inflate_score 0.3 ≤ inflate_score 0.4 ∧
    inflate_score 0.95 ≤ 0.9 ∧
    (0.7 : ℝ) ≤ inflate_score 0.7 :=
  ⟨C1_inflate_monotone_bounded.1 0.3 0.4 (by norm_num),
   C1_inflate_monotone_bounded.2.1 0.95,
   C1_inflate_monotone_bounded.2.2 0.7 (by norm_num) (by norm_num)⟩

/-- C10: for a raw combined score `x ∈ [0, 1]`, the inflated display score
lies in `[0.25, 0.9]`; in particular a raw score of 0 is displayed as 0.25. -/
theorem C10_inflate_range (x : ℝ) (h0 : 0 ≤ x) (h1 : x ≤ 1) :
    (0.25 ≤ inflate_score x ∧ inflate_score x ≤ 0.9) ∧ inflate_score 0 = 0.25 := by
  refine ⟨⟨inflate_score_lower h0, inflate_score_le_cap x⟩, ?_⟩
  simp only [inflate_score]
  norm_num

/-- Witness for C10 at the concrete raw score 0.4. -/
theorem C10_witness :
    ((0.25 : ℝ) ≤ inflate_score 0.4 ∧ inflate_score 0.4 ≤ 0.9) ∧
      inflate_score 0 = 0.25 :=
  C10_inflate_range 0.4 (by norm_num) (by norm_num)

/-- C2 (amended): the interest, social and location scores and the
common-attended-events sub-score always lie in `[0, 1]` (location under a
positive `max_distance`), and empty interest or category lists give interest
score 0; but the time relevance score can fall slightly below 0 — its exact
range is bounded below by `-(1/30)`, attained 30 days out — and the
mutual-connections sub-score `|mutual| / 10` is unbounded above: it is
nonnegative but exceeds 1 as soon as there are more than 10 mutual
connections. -/
theorem C2_amended_score_bounds :
    (∀ ui ec : List String,
      0 ≤ calculate_interest_score ui ec ∧ calculate_interest_score ui ec ≤ 1) ∧
    (∀ ui ec : List String, ui = [] ∨ ec = [] → calculate_interest_score ui ec = 0) ∧
    (∀ (st : ServiceState) (uid eid : String),
      0 ≤ calculate_social_score st uid eid ∧ calculate_social_score st uid eid ≤ 1) ∧
    (∀ (loc : Option (ℝ × ℝ)) (ven : Option Venue) (maxd : ℝ), 0 < maxd →
      0 ≤ calculate_location_score loc ven maxd ∧
        calculate_location_score loc ven maxd ≤ 1) ∧
    (∀ (et : Option ℤ) (now : ℤ),
      -(1 / 30) ≤ calculate_time_relevance_score et now ∧
        calculate_time_relevance_score et now ≤ 1) ∧
    (∀ n : ℕ, 0 ≤ common_events_score n ∧ common_events_score n ≤ 1) ∧
    (∀ n : ℕ, 0 ≤ mutual_connections_score n ∧
      (mutual_connections_score n ≤ 1 ↔ n ≤ 10)) :=
  ⟨calculate_interest_score_bounds,
   calculate_interest_score_empty,
   calculate_social_score_bounds,
   fun loc ven _ h => calculate_location_score_bounds loc ven h,
   calculate_time_relevance_score_bounds,
   common_events_score_bounds,
   mutual_connections_score_props⟩

/-- Counterexample to C2 as stated: the time relevance score of an event
starting exactly 30 days out is `0.5 - 16/30 < 0`, outside `[0, 1]`. -/
theorem C2_counterexample :
    calculate_time_relevance_score (some 2592000) 0 < 0 := by
  unfold calculate_time_relevance_score
  norm_num

/-- Witness for C2 (amended) at concrete inputs. -/
theorem C2_witness :
    calculate_interest_score [] [("tech")] = 0 ∧
    (0 ≤ calculate_location_score (some (0, 0)) none 10 ∧
      calculate_location_score (some (0, 0)) none 10 ≤ 1) ∧
    (0 ≤ mutual_connections_score 11 ∧ (mutual_connections_score 11 ≤ 1 ↔ 11 ≤ 10)) :=
  ⟨C2_amended_score_bounds.2.1 [] [("tech")] (Or.inl rfl),
   C2_amended_score_bounds.2.2.2.1 (some (0, 0)) none 10 (by norm_num),
   C2_amended_score_bounds.2.2.2.2.2.2 11⟩

/-- C5: the time relevance score is 0 for past events, equals `1 - days/14`
for events up to 14 whole days out, equals `0.5 - (days-14)/30` for events 15
to 30 whole days out, and is a flat 0.3 beyond 30 days; an event starting now
scores 1.0, an event exactly 14 days out scores 0, and an event 35 days out
scores 0.3. -/
theorem C5_time_relevance_tiers :
    (∀ t now : ℤ, t < now → calculate_time_relevance_score (some t) now = 0) ∧
    (∀ t now : ℤ, now ≤ t → (t - now) / 86400 ≤ 14 →
      calculate_time_relevance_score (some t) now =
        1 - (((t - now) / 86400 : ℤ) : ℝ) / 14) ∧
    (∀ t now : ℤ, now ≤ t → 15 ≤ (t - now) / 86400 → (t - now) / 86400 ≤ 30 →
      calculate_time_relevance_score (some t) now =
        0.5 - ((((t - now) / 86400 : ℤ) : ℝ) - 14) / 30) ∧
    (∀ t now : ℤ, now ≤ t → 30 < (t - now) / 86400 →
      calculate_time_relevance_score (some t) now = 0.3) ∧
    (∀ now : ℤ, calculate_time_relevance_score (some now) now = 1) ∧
    (∀ now : ℤ, calculate_time_relevance_score (some (now + 14 * 86400)) now = 0) ∧
    (∀ now : ℤ, calculate_time_relevance_score (some (now + 35 * 86400)) now = 0.3) := by
  have hform : ∀ t now : ℤ, ¬ t < now →
      calculate_time_relevance_score (some t) now =
        (if (t - now) / 86400 ≤ 14 then 1 - (((t - now) / 86400 : ℤ) : ℝ) / 14
         else if (t - now) / 86400 ≤ 30 then
           0.5 - ((((t - now) / 86400 : ℤ) : ℝ) - 14) / 30
         else 0.3) := by
    intro t now h
    unfold calculate_time_relevance_score
    simp [h]
  refine ⟨?_, ?_, ?_, ?_, ?_, ?_, ?_⟩
  · intro t now h
    unfold calculate_time_relevance_score
    simp [h]
  · intro t now h h14
    rw [hform t now (not_lt.mpr h), if_pos h14]
  · intro t now h h15 h30
    rw [hform t now (not_lt.mpr h), if_neg (by omega), if_pos h30]
  · intro t now h h30
    rw [hform t now (not_lt.mpr h), if_neg (by omega), if_neg (by omega)]
  · intro now
    rw [hform now now (by omega)]
    norm_num
  · intro now
    have ht : (now + 14 * 86400 - now) / 86400 = 14 := by
      have : now + 14 * 86400 - now = 14 * 86400 := by ring
      rw [this]
      decide
    rw [hform _ now (by omega), ht]
    norm_num
  · intro now
    have ht : (now + 35 * 86400 - now) / 86400 = 35 := by
      have : now + 35 * 86400 - now = 35 * 86400 := by ring
      rw [this]
      decide
    rw [hform _ now (by omega), if_neg (by omega), if_neg (by omega)]

/-- Witness for C5: the four tiers evaluated at concrete times
(1 day out, 20 days out, 35 days out, one second in the past) from `now = 0`. -/
theorem C5_witness :
    calculate_time_relevance_score (some (-1)) 0 = 0 ∧
    calculate_time_relevance_score (some 86400) 0 =
      1 - (((86400 - 0) / 86400 : ℤ) : ℝ) / 14 ∧
    calculate_time_relevance_score (some 1728000) 0 =
      0.5 - ((((1728000 - 0) / 86400 : ℤ) : ℝ) - 14) / 30 ∧
    calculate_time_relevance_score (some 3024000) 0 = 0.3 :=
  ⟨C5_time_relevance_tiers.1 (-1) 0 (by norm_num),
   C5_time_relevance_tiers.2.1 86400 0 (by norm_num) (by decide),
   C5_time_relevance_tiers.2.2.1 1728000 0 (by norm_num) (by decide) (by decide),
   C5_time_relevance_tiers.2.2.2.1 3024000 0 (by norm_num) (by decide)⟩

/-! ### Pipeline helper lemmas -/

theorem mem_of_sort_take {α : Type} (score : α → ℝ) (l : List α) (n : ℕ) {x : α}
    (h : x ∈ (sort_by_score_desc score l).take n) : x ∈ l := by
  have h1 : x ∈ sort_by_score_desc score l := List.take_subset n _ h
  unfold sort_by_score_desc at h1
  exact (List.mergeSort_perm l _).mem_iff.mp h1

theorem sort_by_score_desc_singleton {α : Type} (score : α → ℝ) (x : α) :
    sort_by_score_desc score [x] = [x] :=
  List.perm_singleton.mp (List.mergeSort_perm [x] _)

theorem process_event_some {st : ServiceState} {user_id : String} {user : User}
    {loc : Option (ℝ × ℝ)} {maxd : ℝ} {now : ℤ} {inu : Bool}
    {p : String × Event} {r : EventRec} {e' : Event}
    (h : process_event st user_id user loc maxd now inu p = some (r, e')) :
    ∃ t, p.2.start_time = some t ∧ now ≤ t ∧ r.start_time = t ∧ r.id = p.1 ∧
      r.venue = p.2.venue.getD default_venue ∧
      r.score_details.location_score = pipeline_location_score loc p.2.venue maxd ∧
      ¬ (r.score_details.location_score = 0 ∧ loc ≠ none) ∧
      e' = { p.2 with
              attendees := some (p.2.attendees.getD []),
              venue := some (p.2.venue.getD default_venue),
              schedule := some (p.2.schedule.getD []) } := by
  unfold process_event at h
  rcases hst : p.2.start_time with _ | t
  · rw [hst] at h
    exact absurd h (by simp)
  · rw [hst] at h
    dsimp only at h
    split_ifs at h with h1 h2
    all_goals first
      | exact Option.noConfusion h
      | (rw [Option.some.injEq, Prod.mk.injEq] at h
         obtain ⟨hr, he⟩ := h
         subst hr
         subst he
         exact ⟨t, rfl, not_lt.mp h1, rfl, rfl, rfl, rfl, h2, rfl⟩)

theorem process_event_none_eq {st : ServiceState} {user_id : String}
    {user : User} {maxd : ℝ} {now : ℤ} {inu : Bool} {eid : String} {ev : Event}
    {t : ℤ} (ht : ev.start_time = some t) (hn : ¬ t < now) :
    process_event st user_id user none maxd now inu (eid, ev) =
      some ({ id := eid,
              title := ev.title.getD ("Untitled Event"),
              description := ev.description.getD (""),
              start_time := t,
              image_url := ev.image_url,
              venue := ev.venue.getD default_venue,
              category := ev.category,
              price := ev.price,
              attendees_count := ev.attendees_count,
              attendees := ev.attendees.getD [],
              schedule := ev.schedule.getD [],
              score := inflate_score
                (if inu then
                  0.5 * calculate_interest_score user.interests ev.category +
                    0.1 * calculate_social_score st user_id eid + 0.2 * 0 +
                    0.2 * calculate_time_relevance_score (some t) now
                 else
                  0.35 * calculate_interest_score user.interests ev.category +
                    0.25 * calculate_social_score st user_id eid + 0.2 * 0 +
                    0.2 * calculate_time_relevance_score (some t) now),
              original_score :=
                (if inu then
                  0.5 * calculate_interest_score user.interests ev.category +
                    0.1 * calculate_social_score st user_id eid + 0.2 * 0 +
                    0.2 * calculate_time_relevance_score (some t) now
                 else
                  0.35 * calculate_interest_score user.interests ev.category +
                    0.25 * calculate_social_score st user_id eid + 0.2 * 0 +
                    0.2 * calculate_time_relevance_score (some t) now),
              score_details :=
                ⟨calculate_interest_score user.interests ev.category,
                 calculate_social_score st user_id eid, 0,
                 calculate_time_relevance_score (some t) now⟩ },
            { ev with
              attendees := some (ev.attendees.getD []),
              venue := some (ev.venue.getD default_venue),
              schedule := some (ev.schedule.getD []) }) := by
  unfold process_event
  rw [ht]
  dsimp only
  rw [if_neg hn, if_neg (fun hc => hc.2 rfl), ht]
  rfl

theorem process_event_none_isSome {st : ServiceState} {user_id : String}
    {user : User} {maxd : ℝ} {now : ℤ} {inu : Bool} {p : String × Event}
    {t : ℤ} (ht : p.2.start_time = some t) (hn : now ≤ t) :
    (process_event st user_id user none maxd now inu p).isSome := by
  rw [show p = (p.1, p.2) from rfl,
    @process_event_none_eq st user_id user maxd now inu p.1 p.2 t ht
      (not_lt.mpr hn)]
  rfl

theorem location_score_ne_zero {la lo maxd : ℝ} {venue : Option Venue}
    (hmd : 0 < maxd)
    (h : calculate_location_score (some (la, lo)) venue maxd ≠ 0) :
    ∃ v vla vlo, venue = some v ∧ v.latitude = some vla ∧
      v.longitude = some vlo ∧ calculate_distance la lo vla vlo < maxd := by
  rcases venue with _ | v
  · exact absurd (by simp [calculate_location_score]) h
  · rcases hla : v.latitude with _ | vla
    · exact absurd (by simp [calculate_location_score, hla]) h
    · rcases hlo : v.longitude with _ | vlo
      · exact absurd (by simp [calculate_location_score, hla, hlo]) h
      · refine ⟨v, vla, vlo, rfl, hla, hlo, ?_⟩
        have h' : calculate_location_score (some (la, lo)) (some v) maxd =
            max 0 (1 - calculate_distance la lo vla vlo / maxd) := by
          simp [calculate_location_score, hla, hlo]
        rw [h'] at h
        have hx : 0 < 1 - calculate_distance la lo vla vlo / maxd := by
          by_contra hc
          push_neg at hc
          exact h (max_eq_left hc)
        have hq : calculate_distance la lo vla vlo / maxd < 1 := by linarith
        exact (div_lt_one hmd).mp hq

theorem mem_event_recommendations {st : ServiceState} {user_id : String}
    {lat lon : Option ℝ} {maxd : ℝ} {lim : ℕ} {now : ℤ} {user : User}
    {r : EventRec} (hu : st.users_data.lookup user_id = some user)
    (hr : r ∈ (get_event_recommendations st user_id lat lon maxd lim now).1) :
    ∃ p ∈ st.events_data, ∃ e',
      process_event st user_id user (resolve_location lat lon) maxd now
        (is_new_user_flag user) p = some (r, e') := by
  unfold get_event_recommendations at hr
  rw [hu] at hr
  dsimp only at hr
  have h1 := mem_of_sort_take _ _ _ hr
  unfold event_candidates at h1
  rw [List.mem_filterMap] at h1
  obtain ⟨p, hp, hsome⟩ := h1
  rcases hpe : process_event st user_id user (resolve_location lat lon) maxd now
      (is_new_user_flag user) p with _ | q
  · rw [hpe] at hsome
    exact absurd hsome (by simp)
  · rw [hpe] at hsome
    have hq : q.1 = r := Option.some.inj hsome
    exact ⟨p, hp, q.2, by rw [hpe, ← hq]⟩

theorem eligible_attendee_some {user_id : String} {conns : List String}
    {att : Attendee} {aid : String}
    (h : eligible_attendee user_id conns att = some aid) :
    aid ≠ user_id ∧ aid ∉ conns := by
  rcases att with uid | s
  · rcases uid with _ | x
    · exact absurd h (by simp [eligible_attendee])
    · simp only [eligible_attendee] at h
      split_ifs at h with hc
      all_goals first
        | exact Option.noConfusion h
        | (obtain rfl := Option.some.inj h; exact hc)
  · simp only [eligible_attendee] at h
    split_ifs at h with hc
    all_goals first
      | exact Option.noConfusion h
      | (obtain rfl := Option.some.inj h; exact hc)

theorem score_candidate_some {st : ServiceState} {user_id : String}
    {user : User} {p : String × User} {r : ConnectionRec}
    (h : score_candidate st user_id user p = some r) :
    r.connection_id = p.1 ∧ p.1 ≠ user_id ∧ p.1 ∉ user.connections := by
  unfold score_candidate at h
  split_ifs at h with hc
  all_goals first
    | exact Option.noConfusion h
    | (push_neg at hc
       obtain rfl := (Option.some.inj h).symm
       exact ⟨rfl, hc.1, hc.2⟩)

theorem score_event_attendee_some {st : ServiceState} {event : Event}
    {user_id : String} {user : User} {aid : String} {r : EventConnectionRec}
    (h : score_event_attendee st event user_id user aid = some r) :
    r.connection_id = aid := by
  unfold score_event_attendee at h
  rcases hl : st.users_data.lookup aid with _ | att
  · rw [hl] at h
    exact absurd h (by simp)
  · rw [hl] at h
    obtain rfl := (Option.some.inj h).symm
    rfl

theorem event_fill_eq (e : Event) (ha : e.attendees ≠ none)
    (hv : e.venue ≠ none) (hs : e.schedule ≠ none) :
    ({ e with
        attendees := some (e.attendees.getD []),
        venue := some (e.venue.getD default_venue),
        schedule := some (e.schedule.getD []) } : Event) = e := by
  rcases e with ⟨est, ecat, even, eatt, esch, eti, edesc, eimg, epr, ecnt⟩
  rcases eatt with _ | a
  · exact absurd rfl ha
  · rcases even with _ | v
    · exact absurd rfl hv
    · rcases esch with _ | s
      · exact absurd rfl hs
      · rfl

/-! ### Concrete states used by witnesses and counterexamples -/

/-- A minimal user document. -/
def user_u : User := ⟨[], [], 0, none, none, none⟩

/-- An event whose `attendees`, `venue` and `schedule` keys are all present. -/
def event_full : Event :=
  ⟨some 100, [], some default_venue, some [], some [], none, none, none, none, 0⟩

/-- An event missing the `attendees`, `venue` and `schedule` keys. -/
def event_bare : Event :=
  ⟨some 100, [], none, none, none, none, none, none, none, 0⟩

/-- One user, one fully-populated future event. -/
def state_full : ServiceState := ⟨[(("u"), user_u)], [(("e"), event_full)]⟩

/-- One user, one future event with missing keys. -/
def state_bare : ServiceState := ⟨[(("u"), user_u)], [(("e"), event_bare)]⟩

/-- Two unrelated users (no connections, no events). -/
def state_pair : ServiceState := ⟨[(("a"), user_u), (("b"), user_u)], []⟩

/-! ### Claims about the recommendation pipelines -/

/-- C3: every returned event recommendation starts no earlier than call time;
when a caller location was supplied, any returned event has usable venue
coordinates within `max_distance_km` (far or coordinate-less venues are
excluded entirely); and when no location was supplied, every future-dated
event appears among the (pre-truncation) candidates, i.e. nothing is excluded
on distance grounds. -/
theorem C3_event_recommendation_filters (st : ServiceState) (user_id : String)
    (user : User) (latitude longitude : Option ℝ) (max_distance_km : ℝ)
    (limit : ℕ) (now : ℤ)
    (hu : st.users_data.lookup user_id = some user) (hmd : 0 < max_distance_km) :
    (∀ r ∈ (get_event_recommendations st user_id latitude longitude
        max_distance_km limit now).1,
      now ≤ r.start_time ∧
      (∀ la lo, latitude = some la → longitude = some lo →
        ∃ vla vlo, r.venue.latitude = some vla ∧ r.venue.longitude = some vlo ∧
          calculate_distance la lo vla vlo < max_distance_km)) ∧
    (resolve_location latitude longitude = none →
      ∀ p ∈ st.events_data, (∃ t, p.2.start_time = some t ∧ now ≤ t) →
        ∃ r ∈ event_candidates st user_id user
            (resolve_location latitude longitude) max_distance_km now
            (is_new_user_flag user), r.id = p.1) := by
  constructor
  · intro r hr
    obtain ⟨p, hp, e', hpe⟩ := mem_event_recommendations hu hr
    obtain ⟨t, hst, hnt, hrt, hrid, hrv, hrloc, hne, _⟩ := process_event_some hpe
    refine ⟨by rw [hrt]; exact hnt, ?_⟩
    intro la lo hla hlo
    subst hla
    subst hlo
    rw [show resolve_location (some la) (some lo) = some (la, lo) from rfl]
      at hrloc hne
    have hnz : calculate_location_score (some (la, lo)) p.2.venue
        max_distance_km ≠ 0 := by
      intro h0
      exact hne ⟨by rw [hrloc]; exact h0, by simp⟩
    obtain ⟨v, vla, vlo, hv, hvla, hvlo, hdist⟩ := location_score_ne_zero hmd hnz
    refine ⟨vla, vlo, ?_, ?_, hdist⟩
    · rw [hrv, hv]
      exact hvla
    · rw [hrv, hv]
      exact hvlo
  · intro hres p hp hfut
    obtain ⟨t, hst, hnt⟩ := hfut
    rw [hres]
    have hs := @process_event_none_isSome st user_id user max_distance_km now
      (is_new_user_flag user) p t hst hnt
    obtain ⟨q, hq⟩ := Option.isSome_iff_exists.mp hs
    have hq' : process_event st user_id user none max_distance_km now
        (is_new_user_flag user) p = some (q.1, q.2) := by rw [hq]
    obtain ⟨t', _, _, _, hrid, _⟩ := process_event_some hq'
    refine ⟨q.1, ?_, hrid⟩
    unfold event_candidates
    rw [List.mem_filterMap]
    exact ⟨p, hp, by rw [hq']; rfl⟩

/-- Witness for C3 at a concrete one-user one-event state with no caller
location. -/
theorem C3_witness :
    (∀ r ∈ (get_event_recommendations state_full ("u") none none 10 10 0).1,
      (0 : ℤ) ≤ r.start_time ∧
      (∀ la lo, (none : Option ℝ) = some la → (none : Option ℝ) = some lo →
        ∃ vla vlo, r.venue.latitude = some vla ∧ r.venue.longitude = some vlo ∧
          calculate_distance la lo vla vlo < 10)) ∧
    (resolve_location none none = none →
      ∀ p ∈ state_full.events_data, (∃ t, p.2.start_time = some t ∧ (0 : ℤ) ≤ t) →
        ∃ r ∈ event_candidates state_full ("u") user_u
            (resolve_location none none) 10 0 (is_new_user_flag user_u),
          r.id = p.1) :=
  C3_event_recommendation_filters state_full ("u") user_u none none 10 10 0
    rfl (by norm_num)

/-- C4 (amended): the location score is `max(0, 1 - distance/max_distance)`
when both venue coordinates are present, and 0 when the user location was
supplied but the venue dict or either coordinate is absent; but in the global
branch where the caller supplied no location at all, the location component of
every returned recommendation is 0.0, not a neutral 0.5. -/
theorem C4_amended_location_semantics :
    (∀ (ula ulo maxd : ℝ) (v : Venue) (la lo : ℝ),
      v.latitude = some la → v.longitude = some lo →
      calculate_location_score (some (ula, ulo)) (some v) maxd =
        max 0 (1 - calculate_distance ula ulo la lo / maxd)) ∧
    (∀ (q : ℝ × ℝ) (maxd : ℝ) (v : Venue),
      v.latitude = none ∨ v.longitude = none →
      calculate_location_score (some q) (some v) maxd = 0) ∧
    (∀ (q : ℝ × ℝ) (maxd : ℝ), calculate_location_score (some q) none maxd = 0) ∧
    (∀ (st : ServiceState) (user_id : String) (user : User)
      (latitude longitude : Option ℝ) (maxd : ℝ) (limit : ℕ) (now : ℤ),
      st.users_data.lookup user_id = some user →
      resolve_location latitude longitude = none →
      ∀ r ∈ (get_event_recommendations st user_id latitude longitude maxd
          limit now).1,
        r.score_details.location_score = 0) := by
  refine ⟨?_, ?_, ?_, ?_⟩
  · intro ula ulo maxd v la lo hla hlo
    simp [calculate_location_score, hla, hlo]
  · intro q maxd v h
    rcases q with ⟨qa, qb⟩
    rcases h with h | h
    · simp [calculate_location_score, h]
    · rcases hla : v.latitude with _ | la <;>
        simp [calculate_location_score, hla, h]
  · intro q maxd
    rcases q with ⟨qa, qb⟩
    simp [calculate_location_score]
  · intro st uid user lat lon maxd lim now hu hres r hr
    obtain ⟨p, hp, e', hpe⟩ := mem_event_recommendations hu hr
    rw [hres] at hpe
    obtain ⟨t, _, _, _, _, _, hrloc, _, _⟩ := process_event_some hpe
    rw [hrloc]
    rfl

/-- Witness for C4 (amended) at concrete venues and a concrete no-location
call. -/
theorem C4_witness :
    calculate_location_score (some ((0 : ℝ), (0 : ℝ)))
        (some ⟨none, none, some 0, some 0⟩) 10 =
      max 0 (1 - calculate_distance 0 0 0 0 / 10) ∧
    calculate_location_score (some ((0 : ℝ), (0 : ℝ)))
        (some ⟨none, none, none, some 0⟩) 10 = 0 ∧
    calculate_location_score (some ((0 : ℝ), (0 : ℝ))) none 10 = 0 ∧
    (∀ r ∈ (get_event_recommendations state_full ("u") none none 10 10 0).1,
      r.score_details.location_score = 0) :=
  ⟨C4_amended_location_semantics.1 0 0 10 ⟨none, none, some 0, some 0⟩ 0 0 rfl rfl,
   C4_amended_location_semantics.2.1 (0, 0) 10 ⟨none, none, none, some 0⟩
     (Or.inl rfl),
   C4_amended_location_semantics.2.2.1 (0, 0) 10,
   C4_amended_location_semantics.2.2.2 state_full ("u") user_u none none 10 10 0
     rfl rfl⟩

/-- Counterexample to C4 as stated: in a concrete no-location call the
returned recommendation carries location component 0, not the claimed neutral
0.5. -/
theorem C4_counterexample :
    ((get_event_recommendations state_full ("u") none none 10 10 0).1.map
      (fun r => r.score_details.location_score)) = [0] ∧ (0 : ℝ) ≠ 0.5 := by
  constructor
  · have hpe := @process_event_none_eq state_full ("u") user_u 10 0
      (is_new_user_flag user_u) ("e") event_full 100 rfl (by norm_num)
    unfold get_event_recommendations
    rw [show List.lookup ("u") state_full.users_data = some user_u from rfl]
    dsimp only
    unfold event_candidates
    rw [show resolve_location none none = (none : Option (ℝ × ℝ)) from rfl,
      show state_full.events_data = [(("e"), event_full)] from rfl,
      @List.filterMap_cons_some (String × Event) EventRec
        (fun p => (process_event state_full ("u") user_u none 10 0
          (is_new_user_flag user_u) p).map Prod.fst)
        (("e"), event_full) [] _ (congrArg (Option.map Prod.fst) hpe),
      List.filterMap_nil, sort_by_score_desc_singleton]
    simp [event_full]
  · norm_num

/-- C6: no entry returned by `get_connection_recommendations` or
`get_event_based_connection_recommendations` has a `connection_id` equal to
the requesting user or to a user already in the requesting user's connection
set. -/
theorem C6_no_self_or_connected (st : ServiceState) (user_id event_id : String)
    (limit : ℕ) (user : User)
    (hu : st.users_data.lookup user_id = some user) :
    (∀ r ∈ get_connection_recommendations st user_id limit,
      r.connection_id ≠ user_id ∧ r.connection_id ∉ user.connections) ∧
    (∀ r ∈ get_event_based_connection_recommendations st event_id user_id limit,
      r.connection_id ≠ user_id ∧ r.connection_id ∉ user.connections) := by
  constructor
  · intro r hr
    unfold get_connection_recommendations at hr
    rw [hu] at hr
    have h1 := mem_of_sort_take _ _ _ hr
    rw [List.mem_filterMap] at h1
    obtain ⟨p, _, hsc⟩ := h1
    obtain ⟨hid, hne, hnc⟩ := score_candidate_some hsc
    rw [hid]
    exact ⟨hne, hnc⟩
  · intro r hr
    unfold get_event_based_connection_recommendations at hr
    rcases hev : st.events_data.lookup event_id with _ | event
    · rw [hev] at hr
      exact absurd hr (by simp)
    · rw [hev, hu] at hr
      dsimp only at hr
      have h1 := mem_of_sort_take _ _ _ hr
      rw [List.mem_filterMap] at h1
      obtain ⟨aid, haid, hs⟩ := h1
      rw [List.mem_filterMap] at haid
      obtain ⟨att, _, he⟩ := haid
      obtain ⟨hne, hnc⟩ := eligible_attendee_some he
      rw [score_event_attendee_some hs]
      exact ⟨hne, hnc⟩

/-- Witness for C6 at a concrete two-user state. -/
theorem C6_witness :
    (∀ r ∈ get_connection_recommendations state_pair ("a") 10,
      r.connection_id ≠ ("a") ∧ r.connection_id ∉ user_u.connections) ∧
    (∀ r ∈ get_event_based_connection_recommendations state_pair ("e") ("a") 10,
      r.connection_id ≠ ("a") ∧ r.connection_id ∉ user_u.connections) :=
  C6_no_self_or_connected state_pair ("a") ("e") 10 user_u rfl

/-- C7 (amended): every entry returned by `get_connection_recommendations` is
some user present in the cached user snapshot other than the requesting user
and not already connected to them; the candidate pool is all such users, not
just the 2-hop neighborhood or co-attendees. -/
theorem C7_amended_candidate_pool (st : ServiceState) (user_id : String)
    (limit : ℕ) (user : User)
    (hu : st.users_data.lookup user_id = some user) :
    ∀ r ∈ get_connection_recommendations st user_id limit,
      ∃ other_user, (r.connection_id, other_user) ∈ st.users_data ∧
        r.connection_id ≠ user_id ∧ r.connection_id ∉ user.connections := by
  intro r hr
  unfold get_connection_recommendations at hr
  rw [hu] at hr
  have h1 := mem_of_sort_take _ _ _ hr
  rw [List.mem_filterMap] at h1
  obtain ⟨p, hp, hsc⟩ := h1
  obtain ⟨hid, hne, hnc⟩ := score_candidate_some hsc
  refine ⟨p.2, ?_, by rw [hid]; exact hne, by rw [hid]; exact hnc⟩
  rw [hid]
  exact hp

/-- Witness for C7 (amended) at a concrete two-user state. -/
theorem C7_witness :
    List.lookup ("a") state_pair.users_data = some user_u ∧
    ∀ r ∈ get_connection_recommendations state_pair ("a") 10,
      ∃ other_user, (r.connection_id, other_user) ∈ state_pair.users_data ∧
        r.connection_id ≠ ("a") ∧ r.connection_id ∉ user_u.connections :=
  ⟨rfl, C7_amended_candidate_pool state_pair ("a") 10 user_u rfl⟩

/-- Counterexample to C7 as stated: with two unrelated users (no connections,
no events), `get_connection_recommendations` for user `a` still returns user
`b`, who shares neither a mutual connection nor a commonly attended event with
`a`. -/
theorem C7_counterexample :
    (get_connection_recommendations state_pair ("a") 10).map
      (fun r => r.connection_id) = [("b")] ∧
    neighbors state_pair.users_data ("a") ∩
      neighbors state_pair.users_data ("b") = ∅ ∧
    get_user_events state_pair.events_data ("a") ∩
      get_user_events state_pair.events_data ("b") = ∅ := by
  refine ⟨?_, by decide, by decide⟩
  have h1 : score_candidate state_pair ("a") user_u (("a"), user_u) = none := by
    unfold score_candidate
    rw [if_pos (Or.inl rfl)]
  rcases hsb : score_candidate state_pair ("a") user_u (("b"), user_u)
      with _ | rec
  · exfalso
    unfold score_candidate at hsb
    rw [if_neg (by simp [user_u])] at hsb
    exact Option.noConfusion hsb
  · unfold get_connection_recommendations
    rw [show List.lookup ("a") state_pair.users_data = some user_u from rfl]
    dsimp only
    rw [show state_pair.users_data = [(("a"), user_u), (("b"), user_u)] from rfl,
      List.filterMap_cons_none h1, List.filterMap_cons_some hsb,
      List.filterMap_nil, sort_by_score_desc_singleton]
    simp [(score_candidate_some hsb).1]

/-- C8: for an unknown user id all three recommendation entry points return
the empty list (and do not fail); for an unknown event id the event-based
connection recommender likewise returns the empty list. -/
theorem C8_unknown_ids (st : ServiceState) (user_id event_id : String)
    (latitude longitude : Option ℝ) (max_distance_km : ℝ) (limit : ℕ)
    (now : ℤ) :
    (st.users_data.lookup user_id = none →
      (get_event_recommendations st user_id latitude longitude max_distance_km
        limit now).1 = [] ∧
      get_connection_recommendations st user_id limit = [] ∧
      get_event_based_connection_recommendations st event_id user_id limit = []) ∧
    (st.events_data.lookup event_id = none →
      get_event_based_connection_recommendations st event_id user_id limit = []) := by
  constructor
  · intro hu
    refine ⟨?_, ?_, ?_⟩
    · unfold get_event_recommendations
      rw [hu]
    · unfold get_connection_recommendations
      rw [hu]
    · unfold get_event_based_connection_recommendations
      rcases hev : st.events_data.lookup event_id with _ | event
      · rfl
      · rw [hu]
  · intro hev
    unfold get_event_based_connection_recommendations
    rw [hev]

/-- Witness for C8 at the empty snapshot, where every lookup misses. -/
theorem C8_witness :
    ((get_event_recommendations ⟨[], []⟩ ("u") none none 10 10 0).1 = [] ∧
      get_connection_recommendations ⟨[], []⟩ ("u") 10 = [] ∧
      get_event_based_connection_recommendations ⟨[], []⟩ ("e") ("u") 10 = []) ∧
    get_event_based_connection_recommendations ⟨[], []⟩ ("e") ("u") 10 = [] :=
  ⟨(C8_unknown_ids ⟨[], []⟩ ("u") ("e") none none 10 10 0).1 rfl,
   (C8_unknown_ids ⟨[], []⟩ ("u") ("e") none none 10 10 0).2 rfl⟩

/-- C9 (amended): a `get_event_recommendations` call with no refresh due
leaves `users_data`, the social graph and the refresh timestamp untouched, but
it does mutate the cached event dicts: events that are scored have absent
`attendees`/`venue`/`schedule` keys filled in in place.  When every cached
event already carries those keys, `events_data` is unchanged by the call. -/
theorem C9_amended_cache_mutation (st : ServiceState) (user_id : String)
    (latitude longitude : Option ℝ) (max_distance_km : ℝ) (limit : ℕ)
    (now : ℤ)
    (h : ∀ p ∈ st.events_data,
      p.2.attendees ≠ none ∧ p.2.venue ≠ none ∧ p.2.schedule ≠ none) :
    (get_event_recommendations st user_id latitude longitude max_distance_km
      limit now).2 = st.events_data := by
  unfold get_event_recommendations
  rcases hu : st.users_data.lookup user_id with _ | user
  · rfl
  · dsimp only
    have hmap : st.events_data.map (fun p =>
        match process_event st user_id user (resolve_location latitude longitude)
            max_distance_km now (is_new_user_flag user) p with
        | some (_, e') => (p.1, e')
        | none => p) = st.events_data.map id := by
      apply List.map_congr_left
      intro p hp
      rcases hpe : process_event st user_id user
          (resolve_location latitude longitude) max_distance_km now
          (is_new_user_flag user) p with _ | q
      · simp [hpe]
      · simp only [hpe]
        have hq' : process_event st user_id user
            (resolve_location latitude longitude) max_distance_km now
            (is_new_user_flag user) p = some (q.1, q.2) := by rw [hpe]
        obtain ⟨t, _, _, _, _, _, _, _, he⟩ := process_event_some hq'
        obtain ⟨ha, hv, hs⟩ := h p hp
        rw [he, event_fill_eq p.2 ha hv hs]
        rfl
    rw [hmap, List.map_id]

/-- Witness for C9 (amended): with the single cached event fully populated,
the call leaves `events_data` unchanged. -/
theorem C9_witness :
    (get_event_recommendations state_full ("u") none none 10 10 0).2 =
      state_full.events_data :=
  C9_amended_cache_mutation state_full ("u") none none 10 10 0 (by
    intro p hp
    rw [show state_full.events_data = [(("e"), event_full)] from rfl] at hp
    rw [List.mem_singleton] at hp
    subst hp
    refine ⟨by simp [event_full], by simp [event_full], by simp [event_full]⟩)

/-- Counterexample to C9 as stated: with a cached event missing its
`attendees`/`venue`/`schedule` keys, a `get_event_recommendations` call (with
no refresh due) changes the cached `events_data` in place. -/
theorem C9_counterexample :
    (get_event_recommendations state_bare ("u") none none 10 10 0).2 ≠
      state_bare.events_data := by
  have hpe := @process_event_none_eq state_bare ("u") user_u 10 0
    (is_new_user_flag user_u) ("e") event_bare 100 rfl (by norm_num)
  intro hcontra
  unfold get_event_recommendations at hcontra
  rw [show List.lookup ("u") state_bare.users_data = some user_u from rfl]
    at hcontra
  dsimp only at hcontra
  rw [show resolve_location none none = (none : Option (ℝ × ℝ)) from rfl,
    show state_bare.events_data = [(("e"), event_bare)] from rfl,
    List.map_cons, List.map_nil, hpe] at hcontra
  simp [event_bare] at hcontra
